import Mathlib

/-!
# Verification of the market-data fetcher/cache of `src/test.py`

This file gives a shallow embedding of the caching/retry wrapper
`fetch_stock_data` (together with `load_cache` / `save_cache`) from
`src/test.py`, and proves the testable properties of the specification
against it.

Modelling choices, each justified against the source:

* Parsed JSON values (`response.json()`) are modelled by the inductive
  `Json` (strings, numbers, objects); a provider response is the parsed
  top-level object, an association list `JsonObj`.  Python dicts have
  unique keys; lookup returns the first (hence only) binding.
* Timestamps are natural numbers counting whole seconds.  The code stores
  `current_time.strftime("%Y-%m-%d %H:%M:%S")` in the cache file and parses
  it back with `strptime` of the same pattern; at second precision this
  round trip is the identity, so the embedding keeps the seconds value
  itself.  `current_time - cached_time < CACHE_EXPIRY` on Python datetimes
  is true whenever the cached time is in the future (a negative timedelta
  is smaller than one hour); truncated subtraction on `Nat` gives `0` there
  and `0 < 3600`, so the embedded comparison agrees with the code.
* Effects (network requests, `time.sleep`, `save_cache`, and the
  `load_cache` file read) are recorded in an event trace; the provider is
  an oracle `responses : Nat → JsonObj` giving the parsed body of the
  i-th request (0-based attempt index).
* Python's `in` operator, used as `"API call frequency" in data["Note"]`,
  is substring search when the value is a string, key membership when it is
  a dict, and a `TypeError` when it is a number; `pyIn` models all three,
  and the `TypeError` is caught by the `except` clause like any other
  failure.
* The distinct `raise` sites of the code are the constructors of
  `FetchFailure`; in Python they are all the same generic `Exception`
  type distinguished only by message text.
-/

namespace StockExpert

/-- Parsed JSON values, as returned by `response.json()`. -/
inductive Json where
  | str : String → Json
  | num : Int → Json
  | obj : List (String × Json) → Json

/-- A parsed top-level JSON object (a Python dict with string keys). -/
abbrev JsonObj := List (String × Json)

/-- Dict lookup `d[k]` / membership `k in d`: first binding for `k`. -/
def jsonLookup (d : JsonObj) (k : String) : Option Json :=
  match d with
  | [] => none
  | (k0, v) :: rest => if k0 = k then some v else jsonLookup rest k

/-- `k in d` for a Python dict. -/
def jsonHasKey (d : JsonObj) (k : String) : Bool :=
  (jsonLookup d k).isSome

/-- `pat` is a prefix of `s` (character lists). -/
def charsPrefixOf : List Char → List Char → Bool
  | [], _ => true
  | _ :: _, [] => false
  | a :: as, b :: bs => a = b && charsPrefixOf as bs

/-- `pat` occurs as a contiguous sublist of `s`. -/
def charsContains (pat : List Char) : List Char → Bool
  | [] => charsPrefixOf pat []
  | c :: rest => charsPrefixOf pat (c :: rest) || charsContains pat rest

/-- Python `pat in s` for strings: substring search. -/
def strContains (s pat : String) : Bool :=
  charsContains pat.data s.data

/-- Python `pat in v` for a JSON value `v`: substring search on strings, key
membership on dicts, `TypeError` (`none`) on numbers. -/
def pyIn (pat : String) : Json → Option Bool
  | .str s => some (strContains s pat)
  | .obj l => some (l.any fun kv => kv.1 = pat)
  | .num _ => none

/-- The distinct `raise` sites of `fetch_stock_data`.  In Python every one
is a generic exception distinguished only by its message string; the
constructors record which site (and the interpolated payload where the
message interpolates one). -/
inductive FetchFailure where
  | missingApiKey : FetchFailure
  | rateLimit : FetchFailure
  | apiError : Json → FetchFailure
  | apiInformation : Json → FetchFailure
  | invalidResponse : FetchFailure
  | typeError : FetchFailure

/-- Outcome of classifying one provider response inside the `try` block. -/
inductive AttemptResult where
  | success : JsonObj → AttemptResult
  | failure : FetchFailure → AttemptResult

/-- The checks after the `Note` check: `"Error Message" in data`,
`"Information" in data`, `"Time Series (Daily)" in data`, else invalid. -/
def classifyRest (data : JsonObj) : AttemptResult :=
  match jsonLookup data "Error Message" with
  | some e => .failure (.apiError e)
  | none =>
    match jsonLookup data "Information" with
    | some i => .failure (.apiInformation i)
    | none =>
      if jsonHasKey data "Time Series (Daily)" then .success data
      else .failure .invalidResponse

/-- The body of one attempt of the retry loop of `fetch_stock_data`,
after `data = response.json()`: first
`if "Note" in data and "API call frequency" in data["Note"]`, then the
remaining checks in source order. -/
def classifyResponse (data : JsonObj) : AttemptResult :=
  match jsonLookup data "Note" with
  | some note =>
    match pyIn "API call frequency" note with
    | none => .failure .typeError
    | some true => .failure .rateLimit
    | some false => classifyRest data
  | none => classifyRest data

/-- One cache entry: `{"data": ..., "timestamp": "..."}` with the timestamp
kept as seconds (the `strftime`/`strptime` round trip at second precision). -/
structure CacheEntry where
  data : JsonObj
  timestamp : Nat

/-- The cache file content: a dict from symbol to entry. -/
abbrev Cache := List (String × CacheEntry)

/-- Dict lookup `cache[symbol]` (with `symbol in cache` as `isSome`). -/
def cacheLookup (c : Cache) (s : String) : Option CacheEntry :=
  match c with
  | [] => none
  | (k, e) :: rest => if k = s then some e else cacheLookup rest s

/-- Dict update `cache[symbol] = entry`: replace the binding in place if
the key is present, append at the end otherwise (Python dicts keep
insertion order). -/
def cacheInsert (c : Cache) (s : String) (e : CacheEntry) : Cache :=
  match c with
  | [] => [(s, e)]
  | (k, e0) :: rest =>
    if k = s then (s, e) :: rest else (k, e0) :: cacheInsert rest s e

/-- `load_cache()`: the parsed file when it exists, else the empty dict. -/
def load_cache (file : Option Cache) : Cache :=
  file.getD []

/-- `CACHE_EXPIRY = timedelta(hours=1)`, in seconds. -/
def CACHE_EXPIRY : Nat := 3600

/-- `retries = 3`. -/
def retries : Nat := 3

/-- Observable effects of one call of `fetch_stock_data`, in order. -/
inductive Event where
  | readCache : Cache → Event
  | network : Nat → Event
  | sleep : Nat → Event
  | writeCache : Cache → Event

/-- The result of a call together with its ordered effect trace. -/
structure FetchTrace where
  result : Except FetchFailure JsonObj
  events : List Event

/-- Number of network requests in the trace. -/
def FetchTrace.networkCalls (t : FetchTrace) : Nat :=
  t.events.countP fun e => match e with | .network _ => true | _ => false

/-- The durations of the `time.sleep` calls in the trace, in order. -/
def FetchTrace.sleeps (t : FetchTrace) : List Nat :=
  t.events.filterMap fun e => match e with | .sleep s => some s | _ => none

/-- The arguments of the `save_cache` calls in the trace, in order. -/
def FetchTrace.cacheWrites (t : FetchTrace) : List Cache :=
  t.events.filterMap fun e => match e with | .writeCache c => some c | _ => none

/-- The environment of one call: `API_KEY` (absent or the string from the
environment), the cache file (absent or its parsed content), the clock value
`datetime.now()` reads at the start of the call, and the provider oracle
giving the parsed body of the i-th request. -/
structure Env where
  apiKey : Option String
  cacheFile : Option Cache
  now : Nat
  responses : Nat → JsonObj

/-- `if not API_KEY`: `os.getenv` returns `None` when unset, and both
`None` and the empty string are falsy. -/
def apiKeyPresent : Option String → Bool
  | none => false
  | some s => if s = "" then false else true

/-- The retry loop `for attempt in range(retries)`, resumed at `attempt`
with `remaining = retries - attempt` iterations left.  Each iteration
issues one network request and classifies the parsed response; a
classification failure on the last iteration (`attempt = retries - 1`,
i.e. one iteration left) re-raises; otherwise the loop sleeps 60 seconds
and retries.  On success the updated cache is written (`save_cache`) and
the payload returned.  The `0` case is the loop running no iteration at
all; it never arises, since `fetch_stock_data` enters the loop with
`retries = 3` and a failing iteration recurses only when at least one
iteration is left. -/
def runAttempts (responses : Nat → JsonObj) (symbol : String) (now : Nat)
    (cache : Cache) : Nat → Nat → FetchTrace
  | _, 0 => { result := .error .invalidResponse, events := [] }
  | attempt, remaining + 1 =>
    match classifyResponse (responses attempt) with
    | .success payload =>
      { result := .ok payload
        events := [.network attempt,
                   .writeCache (cacheInsert cache symbol ⟨payload, now⟩)] }
    | .failure f =>
      if remaining = 0 then
        { result := .error f, events := [.network attempt] }
      else
        let rest := runAttempts responses symbol now cache (attempt + 1) remaining
        { result := rest.result
          events := .network attempt :: .sleep 60 :: rest.events }

/-- `fetch_stock_data(symbol)`: missing-credential check, cache load,
freshness check, then the retry loop. -/
def fetch_stock_data (env : Env) (symbol : String) : FetchTrace :=
  if apiKeyPresent env.apiKey = false then
    { result := .error .missingApiKey, events := [] }
  else
    let cache := load_cache env.cacheFile
    match cacheLookup cache symbol with
    | some entry =>
      if env.now - entry.timestamp < CACHE_EXPIRY then
        { result := .ok entry.data, events := [.readCache cache] }
      else
        let t := runAttempts env.responses symbol env.now cache 0 retries
        { result := t.result, events := .readCache cache :: t.events }
    | none =>
      let t := runAttempts env.responses symbol env.now cache 0 retries
      { result := t.result, events := .readCache cache :: t.events }

/-- The cache freshness test of lines 38–40: `symbol` has an entry and
`current_time - cached_time < CACHE_EXPIRY`. -/
def cacheFresh (env : Env) (symbol : String) : Bool :=
  match cacheLookup (load_cache env.cacheFile) symbol with
  | some entry => decide (env.now - entry.timestamp < CACHE_EXPIRY)
  | none => false

/-- The cache file content after the call: the last write, or the original
content when nothing was written. -/
def finalCache (env : Env) (symbol : String) : Cache :=
  ((fetch_stock_data env symbol).cacheWrites.getLast?).getD (load_cache env.cacheFile)

/-! ## Basic unfolding lemmas -/

theorem runAttempts_success (responses : Nat → JsonObj) (symbol : String)
    (now : Nat) (cache : Cache) (attempt remaining : Nat) (p : JsonObj)
    (h : classifyResponse (responses attempt) = .success p) :
    runAttempts responses symbol now cache attempt (remaining + 1) =
      { result := .ok p
        events := [.network attempt,
                   .writeCache (cacheInsert cache symbol ⟨p, now⟩)] } := by
  simp only [runAttempts, h]

theorem runAttempts_fail_last (responses : Nat → JsonObj) (symbol : String)
    (now : Nat) (cache : Cache) (attempt : Nat) (f : FetchFailure)
    (h : classifyResponse (responses attempt) = .failure f) :
    runAttempts responses symbol now cache attempt 1 =
      { result := .error f, events := [.network attempt] } := by
  simp only [runAttempts, h]
  simp

theorem runAttempts_fail_step (responses : Nat → JsonObj) (symbol : String)
    (now : Nat) (cache : Cache) (attempt r : Nat) (f : FetchFailure)
    (h : classifyResponse (responses attempt) = .failure f) :
    runAttempts responses symbol now cache attempt (r + 2) =
      { result := (runAttempts responses symbol now cache (attempt + 1) (r + 1)).result
        events := .network attempt :: .sleep 60 ::
          (runAttempts responses symbol now cache (attempt + 1) (r + 1)).events } := by
  simp only [runAttempts, h]
  simp

theorem networkCalls_mk (r : Except FetchFailure JsonObj) (evs : List Event) :
    FetchTrace.networkCalls ⟨r, evs⟩ =
      evs.countP fun e => match e with | .network _ => true | _ => false := rfl

theorem sleeps_mk (r : Except FetchFailure JsonObj) (evs : List Event) :
    FetchTrace.sleeps ⟨r, evs⟩ =
      evs.filterMap fun e => match e with | .sleep s => some s | _ => none := rfl

theorem cacheWrites_mk (r : Except FetchFailure JsonObj) (evs : List Event) :
    FetchTrace.cacheWrites ⟨r, evs⟩ =
      evs.filterMap fun e => match e with | .writeCache c => some c | _ => none := rfl

/-- A response classified as a success is returned as-is and carries the
`"Time Series (Daily)"` key. -/
theorem classifyResponse_success_inv (d p : JsonObj)
    (h : classifyResponse d = .success p) :
    p = d ∧ jsonHasKey d "Time Series (Daily)" = true := by
  unfold classifyResponse classifyRest at h
  repeat' split at h
  all_goals cases h
  all_goals exact ⟨rfl, by assumption⟩

/-- The retry loop, entered with a positive budget, always issues at least
one network request. -/
theorem runAttempts_networkCalls_pos (responses : Nat → JsonObj)
    (symbol : String) (now : Nat) (cache : Cache) (attempt remaining : Nat) :
    1 ≤ (runAttempts responses symbol now cache attempt (remaining + 1)).networkCalls := by
  rcases hc : classifyResponse (responses attempt) with p | f
  · rw [runAttempts_success responses symbol now cache attempt remaining p hc]
    simp [FetchTrace.networkCalls]
  · match remaining with
    | 0 =>
      rw [runAttempts_fail_last responses symbol now cache attempt f hc]
      simp [FetchTrace.networkCalls]
    | r + 1 =>
      rw [runAttempts_fail_step responses symbol now cache attempt r f hc]
      simp [FetchTrace.networkCalls, List.countP_cons]

/-- Inversion of a successful run of the retry loop: success happened at
some attempt `attempt + k` within the budget, every earlier attempt failed,
one network request was made per attempt up to it, one 60-second sleep
preceded every attempt after the first, and the single cache write is the
loaded cache with the new entry inserted. -/
theorem runAttempts_ok_inv (responses : Nat → JsonObj) (symbol : String)
    (now : Nat) (cache : Cache) :
    ∀ remaining attempt p,
      (runAttempts responses symbol now cache attempt remaining).result = .ok p →
      ∃ k, k < remaining ∧
        classifyResponse (responses (attempt + k)) = .success p ∧
        (∀ i, i < k → ∃ f, classifyResponse (responses (attempt + i)) = .failure f) ∧
        (runAttempts responses symbol now cache attempt remaining).networkCalls = k + 1 ∧
        (runAttempts responses symbol now cache attempt remaining).sleeps =
          List.replicate k 60 ∧
        (runAttempts responses symbol now cache attempt remaining).cacheWrites =
          [cacheInsert cache symbol ⟨p, now⟩] := by
  intro remaining
  induction remaining with
  | zero =>
    intro attempt p h
    simp only [runAttempts] at h
    cases h
  | succ r ih =>
    intro attempt p h
    rcases hc : classifyResponse (responses attempt) with q | f
    · rw [runAttempts_success responses symbol now cache attempt r q hc] at h ⊢
      cases h
      refine ⟨0, Nat.succ_pos r, ?_, ?_, ?_, ?_, ?_⟩
      · simpa using hc
      · intro i hi
        cases hi
      · simp [FetchTrace.networkCalls]
      · simp [FetchTrace.sleeps]
      · simp [FetchTrace.cacheWrites]
    · match r with
      | 0 =>
        rw [runAttempts_fail_last responses symbol now cache attempt f hc] at h
        cases h
      | r' + 1 =>
        rw [runAttempts_fail_step responses symbol now cache attempt r' f hc] at h ⊢
        rcases ih (attempt + 1) p h with ⟨k, hk, hsucc, hprev, hcalls, hsleeps, hwrites⟩
        refine ⟨k + 1, by omega, ?_, ?_, ?_, ?_, ?_⟩
        · simpa [Nat.add_assoc, Nat.add_comm 1 k] using hsucc
        · intro i hi
          match i with
          | 0 => exact ⟨f, by simpa using hc⟩
          | j + 1 =>
            have := hprev j (by omega)
            simpa [Nat.add_assoc, Nat.add_comm 1 j] using this
        · simpa [FetchTrace.networkCalls, List.countP_cons] using hcalls
        · simpa [FetchTrace.sleeps, List.replicate_succ] using hsleeps
        · simpa [FetchTrace.cacheWrites] using hwrites

/-- A failed run of the retry loop never writes the cache. -/
theorem runAttempts_err_inv (responses : Nat → JsonObj) (symbol : String)
    (now : Nat) (cache : Cache) :
    ∀ remaining attempt f,
      (runAttempts responses symbol now cache attempt remaining).result = .error f →
      (runAttempts responses symbol now cache attempt remaining).cacheWrites = [] := by
  intro remaining
  induction remaining with
  | zero =>
    intro attempt f _
    simp [runAttempts, FetchTrace.cacheWrites]
  | succ r ih =>
    intro attempt f h
    rcases hc : classifyResponse (responses attempt) with q | g
    · rw [runAttempts_success responses symbol now cache attempt r q hc] at h
      cases h
    · match r with
      | 0 =>
        rw [runAttempts_fail_last responses symbol now cache attempt g hc]
        simp [FetchTrace.cacheWrites]
      | r' + 1 =>
        rw [runAttempts_fail_step responses symbol now cache attempt r' g hc] at h ⊢
        have := ih (attempt + 1) f h
        simpa [FetchTrace.cacheWrites] using this

/-- If every provider response is classified as a failure, a run of the
retry loop with budget `remaining + 1` makes one request per budgeted
attempt, sleeps 60 seconds between consecutive attempts, writes nothing,
and propagates the failure of the last attempt. -/
theorem runAttempts_all_fail (responses : Nat → JsonObj) (symbol : String)
    (now : Nat) (cache : Cache) (fs : Nat → FetchFailure)
    (hfail : ∀ i, classifyResponse (responses i) = .failure (fs i)) :
    ∀ remaining attempt,
      (runAttempts responses symbol now cache attempt (remaining + 1)).result =
        .error (fs (attempt + remaining)) ∧
      (runAttempts responses symbol now cache attempt (remaining + 1)).networkCalls =
        remaining + 1 ∧
      (runAttempts responses symbol now cache attempt (remaining + 1)).sleeps =
        List.replicate remaining 60 ∧
      (runAttempts responses symbol now cache attempt (remaining + 1)).cacheWrites = [] := by
  intro remaining
  induction remaining with
  | zero =>
    intro attempt
    rw [runAttempts_fail_last responses symbol now cache attempt (fs attempt) (hfail attempt)]
    simp [FetchTrace.networkCalls, FetchTrace.sleeps, FetchTrace.cacheWrites]
  | succ r ih =>
    intro attempt
    rw [runAttempts_fail_step responses symbol now cache attempt r (fs attempt) (hfail attempt)]
    rcases ih (attempt + 1) with ⟨hres, hcalls, hsleeps, hwrites⟩
    refine ⟨?_, ?_, ?_, ?_⟩
    · simpa [Nat.add_assoc, Nat.add_comm 1 r] using hres
    · simpa [FetchTrace.networkCalls, List.countP_cons] using hcalls
    · simpa [FetchTrace.sleeps, List.replicate_succ] using hsleeps
    · simpa [FetchTrace.cacheWrites] using hwrites

/-- With the credential missing (falsy), the call raises at once: no cache
read, no network request, no sleep, no write. -/
theorem fetch_no_key (env : Env) (symbol : String)
    (h : apiKeyPresent env.apiKey = false) :
    fetch_stock_data env symbol =
      { result := .error .missingApiKey, events := [] } := by
  simp [fetch_stock_data, h]

/-- A fresh cache entry short-circuits the call: the only effect is the
cache file read. -/
theorem fetch_hit (env : Env) (symbol : String) (entry : CacheEntry)
    (hk : apiKeyPresent env.apiKey = true)
    (hl : cacheLookup (load_cache env.cacheFile) symbol = some entry)
    (hf : env.now - entry.timestamp < CACHE_EXPIRY) :
    fetch_stock_data env symbol =
      { result := .ok entry.data
        events := [.readCache (load_cache env.cacheFile)] } := by
  simp only [fetch_stock_data, hk, Bool.true_eq_false, if_false, hl, if_pos hf]

/-- Without a fresh cache entry, the call is the cache read followed by the
retry loop with the full budget. -/
theorem fetch_miss (env : Env) (symbol : String)
    (hk : apiKeyPresent env.apiKey = true)
    (hfresh : cacheFresh env symbol = false) :
    fetch_stock_data env symbol =
      { result := (runAttempts env.responses symbol env.now
          (load_cache env.cacheFile) 0 retries).result
        events := .readCache (load_cache env.cacheFile) ::
          (runAttempts env.responses symbol env.now
            (load_cache env.cacheFile) 0 retries).events } := by
  unfold cacheFresh at hfresh
  rcases hl : cacheLookup (load_cache env.cacheFile) symbol with _ | entry
  · simp only [fetch_stock_data, hk, Bool.true_eq_false, if_false, hl]
  · rw [hl] at hfresh
    simp only [decide_eq_false_iff_not] at hfresh
    simp only [fetch_stock_data, hk, Bool.true_eq_false, if_false, hl,
      if_neg hfresh]

/-- `cache[symbol] = entry` makes `symbol` map to `entry`. -/
theorem cacheLookup_cacheInsert_self (c : Cache) (s : String) (e : CacheEntry) :
    cacheLookup (cacheInsert c s e) s = some e := by
  induction c with
  | nil => simp [cacheInsert, cacheLookup]
  | cons kv rest ih =>
    rcases kv with ⟨k, e0⟩
    by_cases hks : k = s
    · simp [cacheInsert, cacheLookup, hks]
    · simp only [cacheInsert, if_neg hks, cacheLookup, if_neg hks]
      exact ih

/-- `cache[symbol] = entry` leaves every other symbol's entry unchanged. -/
theorem cacheLookup_cacheInsert_ne (c : Cache) (s : String) (e : CacheEntry)
    (s' : String) (h : s' ≠ s) :
    cacheLookup (cacheInsert c s e) s' = cacheLookup c s' := by
  induction c with
  | nil => simp [cacheInsert, cacheLookup, Ne.symm h]
  | cons kv rest ih =>
    rcases kv with ⟨k, e0⟩
    by_cases hks : k = s
    · subst hks
      simp only [cacheInsert, if_pos rfl, cacheLookup,
        if_neg (fun hh : k = s' => h (hh.symm)), if_neg (Ne.symm h)]
    · simp only [cacheInsert, if_neg hks, cacheLookup]
      by_cases hk' : k = s'
      · simp [hk']
      · simp only [if_neg hk']
        exact ih

/-- `fetch_miss` with the environment components spelled out and
`retries` evaluated. -/
theorem fetch_miss3 (apiKey : Option String) (file : Option Cache)
    (now : Nat) (responses : Nat → JsonObj) (symbol : String)
    (hk : apiKeyPresent apiKey = true)
    (hfresh : cacheFresh ⟨apiKey, file, now, responses⟩ symbol = false) :
    fetch_stock_data ⟨apiKey, file, now, responses⟩ symbol =
      { result := (runAttempts responses symbol now (load_cache file) 0 3).result
        events := .readCache (load_cache file) ::
          (runAttempts responses symbol now (load_cache file) 0 3).events } :=
  fetch_miss ⟨apiKey, file, now, responses⟩ symbol hk hfresh

/-- Whether the attempt raised (any of the `raise` sites inside the loop). -/
def AttemptResult.isFailure : AttemptResult → Bool
  | .failure _ => true
  | .success _ => false

/-- A rate-limit note (`"Note"` present, text containing
`"API call frequency"`) raises the rate-limit exception, whatever else the
response contains. -/
theorem classifyResponse_rateLimit (d : JsonObj) (note : String)
    (hn : jsonLookup d "Note" = some (.str note))
    (hf : strContains note "API call frequency" = true) :
    classifyResponse d = .failure .rateLimit := by
  unfold classifyResponse
  simp only [hn, pyIn, hf]

/-- A response with none of the recognized keys except a valid
`"Time Series (Daily)"` is a success. -/
theorem classifyResponse_valid (d : JsonObj)
    (hn : jsonLookup d "Note" = none)
    (he : jsonLookup d "Error Message" = none)
    (hi : jsonLookup d "Information" = none)
    (ht : jsonHasKey d "Time Series (Daily)" = true) :
    classifyResponse d = .success d := by
  unfold classifyResponse classifyRest
  simp only [hn, he, hi, ht, if_pos]

/-- Without the time-series key the attempt always raises, whichever
recognized (or unrecognized) shape the response has. -/
theorem classifyResponse_failure_of_no_series (d : JsonObj)
    (h : jsonHasKey d "Time Series (Daily)" = false) :
    (classifyResponse d).isFailure = true := by
  unfold classifyResponse classifyRest
  split
  · split
    · rfl
    · rfl
    · split
      · rfl
      · split
        · rfl
        · split
          · simp_all
          · rfl
  · split
    · rfl
    · split
      · rfl
      · split
        · simp_all
        · rfl

/-- An `"Error Message"` response raises on that attempt. -/
theorem classifyResponse_failure_of_error_message (d : JsonObj) (e : Json)
    (he : jsonLookup d "Error Message" = some e) :
    (classifyResponse d).isFailure = true := by
  unfold classifyResponse classifyRest
  simp only [he]
  split
  · split
    · rfl
    · rfl
    · rfl
  · rfl

/-- An `"Information"` response raises on that attempt. -/
theorem classifyResponse_failure_of_information (d : JsonObj) (i : Json)
    (hi : jsonLookup d "Information" = some i) :
    (classifyResponse d).isFailure = true := by
  unfold classifyResponse classifyRest
  simp only [hi]
  split
  · split
    · rfl
    · rfl
    · split
      · rfl
      · rfl
  · split
    · rfl
    · rfl

/-- Inversion of a call that returns a payload: either it was served from a
fresh cache entry (no network request, nothing written), or it went to the
provider (at least one request, periodic 60-second sleeps, and exactly one
cache write: the loaded mapping with the new entry inserted, timestamped
with the clock value read at the start of the call). -/
theorem fetch_ok_inv (env : Env) (symbol : String) (p : JsonObj)
    (h : (fetch_stock_data env symbol).result = .ok p) :
    ((fetch_stock_data env symbol).cacheWrites = [] ∧
      (fetch_stock_data env symbol).networkCalls = 0 ∧
      ∃ entry, cacheLookup (load_cache env.cacheFile) symbol = some entry ∧
        p = entry.data ∧ env.now - entry.timestamp < CACHE_EXPIRY) ∨
    ((fetch_stock_data env symbol).cacheWrites =
        [cacheInsert (load_cache env.cacheFile) symbol ⟨p, env.now⟩] ∧
      1 ≤ (fetch_stock_data env symbol).networkCalls ∧
      (fetch_stock_data env symbol).sleeps =
        List.replicate ((fetch_stock_data env symbol).networkCalls - 1) 60 ∧
      jsonHasKey p "Time Series (Daily)" = true) := by
  obtain ⟨apiKey, file, now, responses⟩ := env
  dsimp only at h ⊢
  by_cases hk : apiKeyPresent apiKey = true
  · by_cases hfresh : cacheFresh ⟨apiKey, file, now, responses⟩ symbol = true
    · left
      unfold cacheFresh at hfresh
      rcases hl : cacheLookup (load_cache file) symbol with _ | entry
      · rw [hl] at hfresh
        cases hfresh
      · rw [hl] at hfresh
        simp only [decide_eq_true_eq] at hfresh
        have hfetch := fetch_hit ⟨apiKey, file, now, responses⟩ symbol entry hk hl hfresh
        rw [hfetch] at h ⊢
        cases h
        refine ⟨?_, ?_, entry, rfl, rfl, hfresh⟩
        · simp [FetchTrace.cacheWrites]
        · simp [FetchTrace.networkCalls]
    · right
      have hfresh' : cacheFresh ⟨apiKey, file, now, responses⟩ symbol = false := by
        simpa using hfresh
      have hfetch := fetch_miss3 apiKey file now responses symbol hk hfresh'
      rw [hfetch] at h ⊢
      simp only at h
      rcases runAttempts_ok_inv responses symbol now (load_cache file) 3 0 p h with
        ⟨k, hk3, hsucc, _, hcalls, hsleeps, hwrites⟩
      have hhas := (classifyResponse_success_inv _ _ hsucc).2
      have hp := (classifyResponse_success_inv _ _ hsucc).1
      subst hp
      refine ⟨?_, ?_, ?_, hhas⟩
      · simp only [FetchTrace.cacheWrites, List.filterMap_cons]
        exact hwrites
      · simp only [FetchTrace.networkCalls, List.countP_cons]
        simp only [FetchTrace.networkCalls] at hcalls
        omega
      · simp only [FetchTrace.networkCalls, FetchTrace.sleeps, List.countP_cons,
          List.filterMap_cons]
        simp only [FetchTrace.networkCalls] at hcalls
        simp only [FetchTrace.sleeps] at hsleeps
        simp only [hsleeps, hcalls]
        norm_num
  · have hk' : apiKeyPresent apiKey = false := by simpa using hk
    have hfetch := fetch_no_key ⟨apiKey, file, now, responses⟩ symbol hk'
    rw [hfetch] at h
    cases h

/-- A call that raises never calls `save_cache`. -/
theorem fetch_err_inv (env : Env) (symbol : String) (f : FetchFailure)
    (h : (fetch_stock_data env symbol).result = .error f) :
    (fetch_stock_data env symbol).cacheWrites = [] := by
  obtain ⟨apiKey, file, now, responses⟩ := env
  by_cases hk : apiKeyPresent apiKey = true
  · by_cases hfresh : cacheFresh ⟨apiKey, file, now, responses⟩ symbol = true
    · unfold cacheFresh at hfresh
      rcases hl : cacheLookup (load_cache file) symbol with _ | entry
      · rw [hl] at hfresh
        cases hfresh
      · rw [hl] at hfresh
        simp only [decide_eq_true_eq] at hfresh
        rw [fetch_hit ⟨apiKey, file, now, responses⟩ symbol entry hk hl hfresh] at h
        cases h
    · have hfresh' : cacheFresh ⟨apiKey, file, now, responses⟩ symbol = false := by
        simpa using hfresh
      rw [fetch_miss3 apiKey file now responses symbol hk hfresh'] at h ⊢
      dsimp only at h
      have hrun := runAttempts_err_inv responses symbol now (load_cache file) 3 0 f h
      simp only [FetchTrace.cacheWrites, List.filterMap_cons] at hrun ⊢
      exact hrun
  · have hk' : apiKeyPresent apiKey = false := by simpa using hk
    rw [fetch_no_key ⟨apiKey, file, now, responses⟩ symbol hk'] at h ⊢
    rfl

/-! ## Claim theorems -/

/-- C1: for a symbol with a cache entry timestamped `T` (entry content
arbitrary — nothing validates it), a fetch at `T + 59min` returns the
cached payload with zero network calls, a fetch at `T + 61min` makes at
least one network call instead of short-circuiting on the stale entry,
and in general the cached payload is returned with zero network calls iff
`now - fetchedAt < 1 hour`. -/
theorem fetch_cache_hit_iff_fresh (apiKey : String) (hkey : apiKey ≠ "")
    (file : Option Cache) (responses : Nat → JsonObj) (symbol : String)
    (entry : CacheEntry)
    (hentry : cacheLookup (load_cache file) symbol = some entry) :
    (∀ now : Nat,
      ((fetch_stock_data ⟨some apiKey, file, now, responses⟩ symbol).result =
          .ok entry.data ∧
        (fetch_stock_data ⟨some apiKey, file, now, responses⟩ symbol).networkCalls
          = 0) ↔
      now - entry.timestamp < 3600) ∧
    ((fetch_stock_data ⟨some apiKey, file, entry.timestamp + 59 * 60, responses⟩
        symbol).result = .ok entry.data ∧
      (fetch_stock_data ⟨some apiKey, file, entry.timestamp + 59 * 60, responses⟩
        symbol).networkCalls = 0) ∧
    1 ≤ (fetch_stock_data ⟨some apiKey, file, entry.timestamp + 61 * 60, responses⟩
        symbol).networkCalls := by
  have hk : apiKeyPresent (some apiKey) = true := by
    simp [apiKeyPresent, hkey]
  have hforward : ∀ now : Nat, now - entry.timestamp < 3600 →
      (fetch_stock_data ⟨some apiKey, file, now, responses⟩ symbol).result =
        .ok entry.data ∧
      (fetch_stock_data ⟨some apiKey, file, now, responses⟩ symbol).networkCalls
        = 0 := by
    intro now hlt
    rw [fetch_hit ⟨some apiKey, file, now, responses⟩ symbol entry hk hentry hlt]
    exact ⟨rfl, rfl⟩
  have hback : ∀ now : Nat, ¬ now - entry.timestamp < 3600 →
      1 ≤ (fetch_stock_data ⟨some apiKey, file, now, responses⟩
        symbol).networkCalls := by
    intro now hge
    have hfresh : cacheFresh ⟨some apiKey, file, now, responses⟩ symbol = false := by
      unfold cacheFresh
      rw [hentry]
      simpa [CACHE_EXPIRY] using hge
    rw [fetch_miss3 (some apiKey) file now responses symbol hk hfresh]
    have h3 : 1 ≤ (runAttempts responses symbol now (load_cache file) 0 3).networkCalls :=
      runAttempts_networkCalls_pos responses symbol now (load_cache file) 0 2
    simp only [FetchTrace.networkCalls, List.countP_cons] at h3 ⊢
    omega
  refine ⟨?_, hforward _ (by omega), hback _ (by omega)⟩
  intro now
  constructor
  · rintro ⟨hres, hcalls⟩
    by_contra hge
    have := hback now hge
    omega
  · exact hforward now

theorem fetch_cache_hit_iff_fresh_witness :
    ((fetch_stock_data ⟨some "k", some [("AAPL", ⟨[("p", Json.num 1)], 0⟩)],
        0 + 59 * 60, fun _ => []⟩ "AAPL").result = .ok [("p", Json.num 1)] ∧
      (fetch_stock_data ⟨some "k", some [("AAPL", ⟨[("p", Json.num 1)], 0⟩)],
        0 + 59 * 60, fun _ => []⟩ "AAPL").networkCalls = 0) ∧
    1 ≤ (fetch_stock_data ⟨some "k", some [("AAPL", ⟨[("p", Json.num 1)], 0⟩)],
        0 + 61 * 60, fun _ => []⟩ "AAPL").networkCalls :=
  (fetch_cache_hit_iff_fresh "k" (by decide)
    (some [("AAPL", ⟨[("p", Json.num 1)], 0⟩)]) (fun _ => []) "AAPL"
    ⟨[("p", Json.num 1)], 0⟩ rfl).2

/-- C3: with the API credential absent (unset or empty, both falsy), the
call fails at once with the missing-credential error and has an empty
effect trace: no cache read, zero network calls, no sleep (never retried),
no write. -/
theorem fetch_missing_key_fails_fast (apiKey : Option String)
    (hmiss : apiKey = none ∨ apiKey = some "") (file : Option Cache)
    (now : Nat) (responses : Nat → JsonObj) (symbol : String) :
    (fetch_stock_data ⟨apiKey, file, now, responses⟩ symbol).result =
      .error .missingApiKey ∧
    (fetch_stock_data ⟨apiKey, file, now, responses⟩ symbol).networkCalls = 0 ∧
    (fetch_stock_data ⟨apiKey, file, now, responses⟩ symbol).sleeps = [] ∧
    (fetch_stock_data ⟨apiKey, file, now, responses⟩ symbol).events = [] := by
  have hk : apiKeyPresent apiKey = false := by
    rcases hmiss with h | h <;> subst h <;> rfl
  rw [fetch_no_key ⟨apiKey, file, now, responses⟩ symbol hk]
  exact ⟨rfl, rfl, rfl, rfl⟩

theorem fetch_missing_key_fails_fast_witness :
    (fetch_stock_data ⟨none, some [("AAPL", ⟨[("p", Json.num 1)], 0⟩)], 5,
        fun _ => []⟩ "AAPL").result = .error .missingApiKey ∧
    (fetch_stock_data ⟨none, some [("AAPL", ⟨[("p", Json.num 1)], 0⟩)], 5,
        fun _ => []⟩ "AAPL").networkCalls = 0 ∧
    (fetch_stock_data ⟨none, some [("AAPL", ⟨[("p", Json.num 1)], 0⟩)], 5,
        fun _ => []⟩ "AAPL").sleeps = [] ∧
    (fetch_stock_data ⟨none, some [("AAPL", ⟨[("p", Json.num 1)], 0⟩)], 5,
        fun _ => []⟩ "AAPL").events = [] :=
  fetch_missing_key_fails_fast none (Or.inl rfl)
    (some [("AAPL", ⟨[("p", Json.num 1)], 0⟩)]) 5 (fun _ => []) "AAPL"

/-- C9: whenever the call raises — missing credential or all attempts
failed — `save_cache` is never called, so the cache file afterwards is
exactly what it was before; writes happen only on the success path. -/
theorem fetch_no_write_on_failure (env : Env) (symbol : String)
    (f : FetchFailure)
    (h : (fetch_stock_data env symbol).result = .error f) :
    (fetch_stock_data env symbol).cacheWrites = [] ∧
    finalCache env symbol = load_cache env.cacheFile := by
  have hw := fetch_err_inv env symbol f h
  refine ⟨hw, ?_⟩
  unfold finalCache
  rw [hw]
  rfl

theorem fetch_no_write_on_failure_witness :
    (fetch_stock_data ⟨none, some [("A", ⟨[("p", Json.num 1)], 3⟩)], 9,
        fun _ => []⟩ "B").cacheWrites = [] ∧
    finalCache ⟨none, some [("A", ⟨[("p", Json.num 1)], 3⟩)], 9,
        fun _ => []⟩ "B" =
      load_cache (some [("A", ⟨[("p", Json.num 1)], 3⟩)]) :=
  fetch_no_write_on_failure
    ⟨none, some [("A", ⟨[("p", Json.num 1)], 3⟩)], 9, fun _ => []⟩ "B"
    .missingApiKey rfl

/-- C2: when every attempt's response is a rate-limit note (a `"Note"`
whose text contains `"API call frequency"`) and the cache has no fresh
entry, the call makes exactly 3 network requests, sleeps exactly twice for
60 seconds (between attempts — the event trace shows none after the final
request), writes nothing, and propagates the rate-limit failure of the
last attempt. -/
theorem fetch_retry_budget (apiKey : String) (hkey : apiKey ≠ "")
    (file : Option Cache) (now : Nat) (responses : Nat → JsonObj)
    (symbol : String) (notes : Nat → String)
    (hnofresh : cacheFresh ⟨some apiKey, file, now, responses⟩ symbol = false)
    (hnote : ∀ i, jsonLookup (responses i) "Note" = some (.str (notes i)))
    (hfreq : ∀ i, strContains (notes i) "API call frequency" = true) :
    (fetch_stock_data ⟨some apiKey, file, now, responses⟩ symbol).result =
      .error .rateLimit ∧
    (fetch_stock_data ⟨some apiKey, file, now, responses⟩ symbol).networkCalls
      = 3 ∧
    (fetch_stock_data ⟨some apiKey, file, now, responses⟩ symbol).sleeps =
      [60, 60] ∧
    (fetch_stock_data ⟨some apiKey, file, now, responses⟩ symbol).cacheWrites
      = [] ∧
    (fetch_stock_data ⟨some apiKey, file, now, responses⟩ symbol).events =
      [.readCache (load_cache file), .network 0, .sleep 60, .network 1,
       .sleep 60, .network 2] := by
  have hk : apiKeyPresent (some apiKey) = true := by
    simp [apiKeyPresent, hkey]
  have hcls : ∀ i, classifyResponse (responses i) = .failure .rateLimit :=
    fun i => classifyResponse_rateLimit (responses i) (notes i) (hnote i) (hfreq i)
  have h0 : runAttempts responses symbol now (load_cache file) 0 3 =
      { result := (runAttempts responses symbol now (load_cache file) 1 2).result
        events := .network 0 :: .sleep 60 ::
          (runAttempts responses symbol now (load_cache file) 1 2).events } :=
    runAttempts_fail_step responses symbol now (load_cache file) 0 1
      .rateLimit (hcls 0)
  have h1 : runAttempts responses symbol now (load_cache file) 1 2 =
      { result := (runAttempts responses symbol now (load_cache file) 2 1).result
        events := .network 1 :: .sleep 60 ::
          (runAttempts responses symbol now (load_cache file) 2 1).events } :=
    runAttempts_fail_step responses symbol now (load_cache file) 1 0
      .rateLimit (hcls 1)
  have h2 : runAttempts responses symbol now (load_cache file) 2 1 =
      { result := .error .rateLimit, events := [.network 2] } :=
    runAttempts_fail_last responses symbol now (load_cache file) 2
      .rateLimit (hcls 2)
  rw [fetch_miss3 (some apiKey) file now responses symbol hk hnofresh, h0, h1, h2]
  exact ⟨rfl, rfl, rfl, rfl, rfl⟩

theorem fetch_retry_budget_witness :
    (fetch_stock_data ⟨some "k", none, 0,
        fun _ => [("Note", Json.str "Our standard API call frequency is 25")]⟩
        "IBM").result = .error .rateLimit ∧
    (fetch_stock_data ⟨some "k", none, 0,
        fun _ => [("Note", Json.str "Our standard API call frequency is 25")]⟩
        "IBM").networkCalls = 3 ∧
    (fetch_stock_data ⟨some "k", none, 0,
        fun _ => [("Note", Json.str "Our standard API call frequency is 25")]⟩
        "IBM").sleeps = [60, 60] ∧
    (fetch_stock_data ⟨some "k", none, 0,
        fun _ => [("Note", Json.str "Our standard API call frequency is 25")]⟩
        "IBM").cacheWrites = [] ∧
    (fetch_stock_data ⟨some "k", none, 0,
        fun _ => [("Note", Json.str "Our standard API call frequency is 25")]⟩
        "IBM").events =
      [.readCache (load_cache none), .network 0, .sleep 60, .network 1,
       .sleep 60, .network 2] :=
  fetch_retry_budget "k" (by decide) none 0
    (fun _ => [("Note", Json.str "Our standard API call frequency is 25")])
    "IBM" (fun _ => "Our standard API call frequency is 25") rfl
    (fun _ => rfl) (fun _ => rfl)

/-- C7: rate-limit notes on attempts 1 and 2 and a valid time-series
payload on attempt 3 (no recognized error key, the daily series key
present): the call returns the attempt-3 payload and slept exactly twice. -/
theorem fetch_rate_limited_then_success (apiKey : String) (hkey : apiKey ≠ "")
    (file : Option Cache) (now : Nat) (responses : Nat → JsonObj)
    (symbol : String) (n0 n1 : String)
    (hnofresh : cacheFresh ⟨some apiKey, file, now, responses⟩ symbol = false)
    (h0 : jsonLookup (responses 0) "Note" = some (.str n0))
    (h0f : strContains n0 "API call frequency" = true)
    (h1 : jsonLookup (responses 1) "Note" = some (.str n1))
    (h1f : strContains n1 "API call frequency" = true)
    (h2n : jsonLookup (responses 2) "Note" = none)
    (h2e : jsonLookup (responses 2) "Error Message" = none)
    (h2i : jsonLookup (responses 2) "Information" = none)
    (h2t : jsonHasKey (responses 2) "Time Series (Daily)" = true) :
    (fetch_stock_data ⟨some apiKey, file, now, responses⟩ symbol).result =
      .ok (responses 2) ∧
    (fetch_stock_data ⟨some apiKey, file, now, responses⟩ symbol).sleeps =
      [60, 60] ∧
    (fetch_stock_data ⟨some apiKey, file, now, responses⟩ symbol).networkCalls
      = 3 := by
  have hk : apiKeyPresent (some apiKey) = true := by
    simp [apiKeyPresent, hkey]
  have ha : runAttempts responses symbol now (load_cache file) 0 3 =
      { result := (runAttempts responses symbol now (load_cache file) 1 2).result
        events := .network 0 :: .sleep 60 ::
          (runAttempts responses symbol now (load_cache file) 1 2).events } :=
    runAttempts_fail_step responses symbol now (load_cache file) 0 1
      .rateLimit (classifyResponse_rateLimit (responses 0) n0 h0 h0f)
  have hb : runAttempts responses symbol now (load_cache file) 1 2 =
      { result := (runAttempts responses symbol now (load_cache file) 2 1).result
        events := .network 1 :: .sleep 60 ::
          (runAttempts responses symbol now (load_cache file) 2 1).events } :=
    runAttempts_fail_step responses symbol now (load_cache file) 1 0
      .rateLimit (classifyResponse_rateLimit (responses 1) n1 h1 h1f)
  have hc : runAttempts responses symbol now (load_cache file) 2 1 =
      { result := .ok (responses 2)
        events := [.network 2,
          .writeCache (cacheInsert (load_cache file) symbol
            ⟨responses 2, now⟩)] } :=
    runAttempts_success responses symbol now (load_cache file) 2 0
      (responses 2) (classifyResponse_valid (responses 2) h2n h2e h2i h2t)
  rw [fetch_miss3 (some apiKey) file now responses symbol hk hnofresh, ha, hb, hc]
  exact ⟨rfl, rfl, rfl⟩

theorem fetch_rate_limited_then_success_witness :
    (fetch_stock_data ⟨some "k", none, 0, fun i =>
        match i with
        | 0 => [("Note", Json.str "Our standard API call frequency is 25")]
        | 1 => [("Note", Json.str "Our standard API call frequency is 25")]
        | _ => [("Time Series (Daily)", Json.obj [("2024-01-02",
            Json.obj [("4. close", Json.str "150.00")])])]⟩
        "IBM").result =
      .ok [("Time Series (Daily)", Json.obj [("2024-01-02",
        Json.obj [("4. close", Json.str "150.00")])])] ∧
    (fetch_stock_data ⟨some "k", none, 0, fun i =>
        match i with
        | 0 => [("Note", Json.str "Our standard API call frequency is 25")]
        | 1 => [("Note", Json.str "Our standard API call frequency is 25")]
        | _ => [("Time Series (Daily)", Json.obj [("2024-01-02",
            Json.obj [("4. close", Json.str "150.00")])])]⟩
        "IBM").sleeps = [60, 60] ∧
    (fetch_stock_data ⟨some "k", none, 0, fun i =>
        match i with
        | 0 => [("Note", Json.str "Our standard API call frequency is 25")]
        | 1 => [("Note", Json.str "Our standard API call frequency is 25")]
        | _ => [("Time Series (Daily)", Json.obj [("2024-01-02",
            Json.obj [("4. close", Json.str "150.00")])])]⟩
        "IBM").networkCalls = 3 :=
  fetch_rate_limited_then_success "k" (by decide) none 0
    (fun i =>
      match i with
      | 0 => [("Note", Json.str "Our standard API call frequency is 25")]
      | 1 => [("Note", Json.str "Our standard API call frequency is 25")]
      | _ => [("Time Series (Daily)", Json.obj [("2024-01-02",
          Json.obj [("4. close", Json.str "150.00")])])])
    "IBM" "Our standard API call frequency is 25"
    "Our standard API call frequency is 25" rfl rfl (by decide) rfl
    (by decide) rfl rfl rfl rfl

/-- C5, counterexample to the claim as stated: a fetch for `"AAPL"` at
time `T = 100` that succeeds from a fresh cache entry written at time `0`
persists nothing — `save_cache` is never called — and the cache file keeps
`"AAPL"` at timestamp `0 ≠ 100`.  The claim holds only for fetches that
reach the provider. -/
theorem fetch_success_persistence_cex :
    (fetch_stock_data ⟨some "k", some [("AAPL", ⟨[("x", Json.num 1)], 0⟩)],
        100, fun _ => []⟩ "AAPL").result = .ok [("x", Json.num 1)] ∧
    (fetch_stock_data ⟨some "k", some [("AAPL", ⟨[("x", Json.num 1)], 0⟩)],
        100, fun _ => []⟩ "AAPL").cacheWrites = [] ∧
    cacheLookup (finalCache ⟨some "k", some [("AAPL", ⟨[("x", Json.num 1)], 0⟩)],
        100, fun _ => []⟩ "AAPL") "AAPL" = some ⟨[("x", Json.num 1)], 0⟩ ∧
    (0 : Nat) ≠ 100 :=
  ⟨rfl, rfl, rfl, by decide⟩

/-- C5 amended: a fetch for `"AAPL"` at time `T` that succeeds via a
provider request (at least one network call, i.e. not served from the
fresh cache) persists the entire mapping in a single `save_cache` call:
the loaded cache with `"AAPL"` bound to the raw provider payload and the
timestamp `T` (stored via `strftime "%Y-%m-%d %H:%M:%S"`, i.e. at second
precision), so afterwards the file maps `"AAPL"` to `⟨payload, T⟩`. -/
theorem fetch_success_persistence_amended (apiKey : Option String)
    (file : Option Cache) (now : Nat) (responses : Nat → JsonObj) (p : JsonObj)
    (hok : (fetch_stock_data ⟨apiKey, file, now, responses⟩ "AAPL").result =
      .ok p)
    (hnet : 1 ≤ (fetch_stock_data ⟨apiKey, file, now, responses⟩
      "AAPL").networkCalls) :
    (fetch_stock_data ⟨apiKey, file, now, responses⟩ "AAPL").cacheWrites =
      [cacheInsert (load_cache file) "AAPL" ⟨p, now⟩] ∧
    cacheLookup (finalCache ⟨apiKey, file, now, responses⟩ "AAPL") "AAPL" =
      some ⟨p, now⟩ := by
  rcases fetch_ok_inv ⟨apiKey, file, now, responses⟩ "AAPL" p hok with
    ⟨_, hzero, _⟩ | ⟨hw, _, _, _⟩
  · omega
  · have hw' : (fetch_stock_data ⟨apiKey, file, now, responses⟩
        "AAPL").cacheWrites = [cacheInsert (load_cache file) "AAPL" ⟨p, now⟩] :=
      hw
    refine ⟨hw', ?_⟩
    unfold finalCache
    rw [hw']
    exact cacheLookup_cacheInsert_self (load_cache file) "AAPL" ⟨p, now⟩

theorem fetch_success_persistence_amended_witness :
    (fetch_stock_data ⟨some "k", none, 7, fun _ =>
        [("Time Series (Daily)", Json.obj [("2024-01-02",
          Json.obj [("4. close", Json.str "150.00")])])]⟩
        "AAPL").cacheWrites =
      [cacheInsert (load_cache none) "AAPL"
        ⟨[("Time Series (Daily)", Json.obj [("2024-01-02",
          Json.obj [("4. close", Json.str "150.00")])])], 7⟩] ∧
    cacheLookup (finalCache ⟨some "k", none, 7, fun _ =>
        [("Time Series (Daily)", Json.obj [("2024-01-02",
          Json.obj [("4. close", Json.str "150.00")])])]⟩ "AAPL") "AAPL" =
      some ⟨[("Time Series (Daily)", Json.obj [("2024-01-02",
        Json.obj [("4. close", Json.str "150.00")])])], 7⟩ :=
  fetch_success_persistence_amended (some "k") none 7
    (fun _ => [("Time Series (Daily)", Json.obj [("2024-01-02",
      Json.obj [("4. close", Json.str "150.00")])])])
    [("Time Series (Daily)", Json.obj [("2024-01-02",
      Json.obj [("4. close", Json.str "150.00")])])]
    rfl (by decide)

/-- C8: a fetch of `symbol` that returns a payload leaves every other
symbol's entry unchanged in the final cache file, and when it reached the
provider, the single write is the fully loaded mapping with only the
`symbol` entry replaced or appended — the whole mapping is rewritten. -/
theorem fetch_frame_other_symbols (env : Env) (symbol : String) (p : JsonObj)
    (hok : (fetch_stock_data env symbol).result = .ok p) :
    (∀ s, s ≠ symbol →
      cacheLookup (finalCache env symbol) s =
        cacheLookup (load_cache env.cacheFile) s) ∧
    (1 ≤ (fetch_stock_data env symbol).networkCalls →
      (fetch_stock_data env symbol).cacheWrites =
        [cacheInsert (load_cache env.cacheFile) symbol ⟨p, env.now⟩]) := by
  rcases fetch_ok_inv env symbol p hok with ⟨hw, hzero, _⟩ | ⟨hw, _, _, _⟩
  · refine ⟨?_, fun hn => by omega⟩
    intro s _
    unfold finalCache
    rw [hw]
    rfl
  · refine ⟨?_, fun _ => hw⟩
    intro s hs
    unfold finalCache
    rw [hw]
    exact cacheLookup_cacheInsert_ne (load_cache env.cacheFile) symbol
      ⟨p, env.now⟩ s hs

theorem fetch_frame_other_symbols_witness :
    cacheLookup (finalCache ⟨some "k",
        some [("OLD", ⟨[("o", Json.num 2)], 0⟩)], 9999, fun _ =>
        [("Time Series (Daily)", Json.obj [("2024-01-02",
          Json.obj [("4. close", Json.str "150.00")])])]⟩ "AAPL") "OLD" =
      cacheLookup (load_cache (some [("OLD", ⟨[("o", Json.num 2)], 0⟩)]))
        "OLD" ∧
    (fetch_stock_data ⟨some "k", some [("OLD", ⟨[("o", Json.num 2)], 0⟩)],
        9999, fun _ =>
        [("Time Series (Daily)", Json.obj [("2024-01-02",
          Json.obj [("4. close", Json.str "150.00")])])]⟩ "AAPL").cacheWrites =
      [cacheInsert (load_cache (some [("OLD", ⟨[("o", Json.num 2)], 0⟩)]))
        "AAPL"
        ⟨[("Time Series (Daily)", Json.obj [("2024-01-02",
          Json.obj [("4. close", Json.str "150.00")])])], 9999⟩] :=
  ⟨(fetch_frame_other_symbols ⟨some "k",
      some [("OLD", ⟨[("o", Json.num 2)], 0⟩)], 9999, fun _ =>
      [("Time Series (Daily)", Json.obj [("2024-01-02",
        Json.obj [("4. close", Json.str "150.00")])])]⟩ "AAPL"
      [("Time Series (Daily)", Json.obj [("2024-01-02",
        Json.obj [("4. close", Json.str "150.00")])])] rfl).1 "OLD"
      (by decide),
   (fetch_frame_other_symbols ⟨some "k",
      some [("OLD", ⟨[("o", Json.num 2)], 0⟩)], 9999, fun _ =>
      [("Time Series (Daily)", Json.obj [("2024-01-02",
        Json.obj [("4. close", Json.str "150.00")])])]⟩ "AAPL"
      [("Time Series (Daily)", Json.obj [("2024-01-02",
        Json.obj [("4. close", Json.str "150.00")])])] rfl).2 (by decide)⟩

/-- C10: any fetch that succeeds via the provider stores the clock value
read once at the start of the call (line 35, before the retry loop) as the
entry's timestamp, and if success came on attempt `n = networkCalls`, the
loop had already slept `(n - 1) × 60` seconds after that clock read, so
the stored timestamp predates the successful response by at least the
cumulative backoff, shortening the entry's effective freshness window. -/
theorem fetch_timestamp_from_start (env : Env) (symbol : String) (p : JsonObj)
    (hok : (fetch_stock_data env symbol).result = .ok p)
    (hnet : 1 ≤ (fetch_stock_data env symbol).networkCalls) :
    (fetch_stock_data env symbol).cacheWrites =
      [cacheInsert (load_cache env.cacheFile) symbol ⟨p, env.now⟩] ∧
    cacheLookup (finalCache env symbol) symbol = some ⟨p, env.now⟩ ∧
    (fetch_stock_data env symbol).sleeps =
      List.replicate ((fetch_stock_data env symbol).networkCalls - 1) 60 ∧
    ((fetch_stock_data env symbol).sleeps).sum =
      ((fetch_stock_data env symbol).networkCalls - 1) * 60 := by
  rcases fetch_ok_inv env symbol p hok with ⟨_, hzero, _⟩ | ⟨hw, _, hsl, _⟩
  · omega
  · refine ⟨hw, ?_, hsl, ?_⟩
    · unfold finalCache
      rw [hw]
      exact cacheLookup_cacheInsert_self (load_cache env.cacheFile) symbol
        ⟨p, env.now⟩
    · rw [hsl]
      simp [List.sum_replicate, smul_eq_mul]

theorem fetch_timestamp_from_start_witness :
    (fetch_stock_data ⟨some "k", none, 4, fun i =>
        match i with
        | 0 => [("Note", Json.str "Our standard API call frequency is 25")]
        | 1 => [("Note", Json.str "Our standard API call frequency is 25")]
        | _ => [("Time Series (Daily)", Json.obj [("2024-01-02",
            Json.obj [("4. close", Json.str "150.00")])])]⟩
        "MSFT").cacheWrites =
      [cacheInsert (load_cache none) "MSFT"
        ⟨[("Time Series (Daily)", Json.obj [("2024-01-02",
          Json.obj [("4. close", Json.str "150.00")])])], 4⟩] ∧
    cacheLookup (finalCache ⟨some "k", none, 4, fun i =>
        match i with
        | 0 => [("Note", Json.str "Our standard API call frequency is 25")]
        | 1 => [("Note", Json.str "Our standard API call frequency is 25")]
        | _ => [("Time Series (Daily)", Json.obj [("2024-01-02",
            Json.obj [("4. close", Json.str "150.00")])])]⟩
        "MSFT") "MSFT" =
      some ⟨[("Time Series (Daily)", Json.obj [("2024-01-02",
        Json.obj [("4. close", Json.str "150.00")])])], 4⟩ ∧
    (fetch_stock_data ⟨some "k", none, 4, fun i =>
        match i with
        | 0 => [("Note", Json.str "Our standard API call frequency is 25")]
        | 1 => [("Note", Json.str "Our standard API call frequency is 25")]
        | _ => [("Time Series (Daily)", Json.obj [("2024-01-02",
            Json.obj [("4. close", Json.str "150.00")])])]⟩
        "MSFT").sleeps =
      List.replicate ((fetch_stock_data ⟨some "k", none, 4, fun i =>
        match i with
        | 0 => [("Note", Json.str "Our standard API call frequency is 25")]
        | 1 => [("Note", Json.str "Our standard API call frequency is 25")]
        | _ => [("Time Series (Daily)", Json.obj [("2024-01-02",
            Json.obj [("4. close", Json.str "150.00")])])]⟩
        "MSFT").networkCalls - 1) 60 ∧
    ((fetch_stock_data ⟨some "k", none, 4, fun i =>
        match i with
        | 0 => [("Note", Json.str "Our standard API call frequency is 25")]
        | 1 => [("Note", Json.str "Our standard API call frequency is 25")]
        | _ => [("Time Series (Daily)", Json.obj [("2024-01-02",
            Json.obj [("4. close", Json.str "150.00")])])]⟩
        "MSFT").sleeps).sum =
      ((fetch_stock_data ⟨some "k", none, 4, fun i =>
        match i with
        | 0 => [("Note", Json.str "Our standard API call frequency is 25")]
        | 1 => [("Note", Json.str "Our standard API call frequency is 25")]
        | _ => [("Time Series (Daily)", Json.obj [("2024-01-02",
            Json.obj [("4. close", Json.str "150.00")])])]⟩
        "MSFT").networkCalls - 1) * 60 :=
  fetch_timestamp_from_start ⟨some "k", none, 4, fun i =>
      match i with
      | 0 => [("Note", Json.str "Our standard API call frequency is 25")]
      | 1 => [("Note", Json.str "Our standard API call frequency is 25")]
      | _ => [("Time Series (Daily)", Json.obj [("2024-01-02",
          Json.obj [("4. close", Json.str "150.00")])])]⟩
    "MSFT"
    [("Time Series (Daily)", Json.obj [("2024-01-02",
      Json.obj [("4. close", Json.str "150.00")])])]
    rfl (by decide)

/-- C4, counterexample to the claim as stated: the cache-hit path returns
the stored `data` without validating it (lines 38–42), so a cache file
whose `"IBM"` entry lacks the `"Time Series (Daily)"` key yields a
successful (non-raising) return whose payload lacks the key. -/
theorem fetch_success_without_series_key_cex :
    (fetch_stock_data ⟨some "k", some [("IBM", ⟨[("oops", Json.num 0)], 0⟩)],
        0, fun _ => []⟩ "IBM").result = .ok [("oops", Json.num 0)] ∧
    jsonHasKey [("oops", Json.num 0)] "Time Series (Daily)" = false :=
  ⟨rfl, rfl⟩

/-- C4 amended: provided every entry of the loaded cache file carries the
`"Time Series (Daily)"` key — an invariant every cache write performed by
`fetch_stock_data` itself maintains (second conjunct) — every successful
return carries the key; and in the `"IBM"` scenario the provider payload
`{"Time Series (Daily)": {"2024-01-02": {"4. close": "150.00"}}}` is
returned unchanged. -/
theorem fetch_success_series_key_amended :
    (∀ env symbol p,
      (∀ s e, cacheLookup (load_cache env.cacheFile) s = some e →
        jsonHasKey e.data "Time Series (Daily)" = true) →
      (fetch_stock_data env symbol).result = .ok p →
      jsonHasKey p "Time Series (Daily)" = true) ∧
    (∀ env symbol w,
      (∀ s e, cacheLookup (load_cache env.cacheFile) s = some e →
        jsonHasKey e.data "Time Series (Daily)" = true) →
      w ∈ (fetch_stock_data env symbol).cacheWrites →
      ∀ s e, cacheLookup w s = some e →
        jsonHasKey e.data "Time Series (Daily)" = true) ∧
    (fetch_stock_data ⟨some "k", none, 0, fun _ =>
        [("Time Series (Daily)", Json.obj [("2024-01-02",
          Json.obj [("4. close", Json.str "150.00")])])]⟩ "IBM").result =
      .ok [("Time Series (Daily)", Json.obj [("2024-01-02",
        Json.obj [("4. close", Json.str "150.00")])])] := by
  refine ⟨?_, ?_, rfl⟩
  · intro env symbol p hinv hok
    rcases fetch_ok_inv env symbol p hok with
      ⟨_, _, entry, hl, hp, _⟩ | ⟨_, _, _, hhas⟩
    · subst hp
      exact hinv symbol entry hl
    · exact hhas
  · intro env symbol w hinv hmem
    rcases hres : (fetch_stock_data env symbol).result with f | p
    · rw [fetch_err_inv env symbol f hres] at hmem
      cases hmem
    · rcases fetch_ok_inv env symbol p hres with ⟨hw, _, _⟩ | ⟨hw, _, _, hhas⟩
      · rw [hw] at hmem
        cases hmem
      · rw [hw] at hmem
        rcases List.mem_singleton.mp hmem with rfl
        intro s e hle
        by_cases hs : s = symbol
        · subst hs
          rw [cacheLookup_cacheInsert_self] at hle
          cases hle
          exact hhas
        · rw [cacheLookup_cacheInsert_ne _ _ _ _ hs] at hle
          exact hinv s e hle

theorem fetch_success_series_key_amended_witness :
    jsonHasKey [("Time Series (Daily)", Json.obj [("2024-01-02",
      Json.obj [("4. close", Json.str "150.00")])])]
      "Time Series (Daily)" = true :=
  fetch_success_series_key_amended.1
    ⟨some "k", none, 0, fun _ =>
      [("Time Series (Daily)", Json.obj [("2024-01-02",
        Json.obj [("4. close", Json.str "150.00")])])]⟩ "IBM"
    [("Time Series (Daily)", Json.obj [("2024-01-02",
      Json.obj [("4. close", Json.str "150.00")])])]
    (fun _ _ h => Option.noConfusion h) rfl

/-- C6: a rate-limit `"Note"` raises the rate-limit exception; an
`"Error Message"` field, an `"Information"` field, and a response lacking
the time-series key while matching no recognized shape each raise on that
attempt exactly like a rate-limit (same `raise`/retry treatment); and when
every attempt fails — whatever the mix of failure kinds — the call makes
3 requests, sleeps twice, writes nothing, and surfaces the last attempt's
failure as the single propagated exception (in Python all are the one
generic `Exception` type, distinguished only by message text). -/
theorem fetch_error_shapes_uniform :
    (∀ (d : JsonObj) (note : String),
      jsonLookup d "Note" = some (.str note) →
      strContains note "API call frequency" = true →
      classifyResponse d = .failure .rateLimit) ∧
    (∀ (d : JsonObj) (e : Json), jsonLookup d "Error Message" = some e →
      (classifyResponse d).isFailure = true) ∧
    (∀ (d : JsonObj) (i : Json), jsonLookup d "Information" = some i →
      (classifyResponse d).isFailure = true) ∧
    (∀ d : JsonObj, jsonHasKey d "Time Series (Daily)" = false →
      (classifyResponse d).isFailure = true) ∧
    (∀ (apiKey : Option String) (file : Option Cache) (now : Nat)
      (responses : Nat → JsonObj) (symbol : String)
      (fs : Nat → FetchFailure),
      apiKeyPresent apiKey = true →
      cacheFresh ⟨apiKey, file, now, responses⟩ symbol = false →
      (∀ i, classifyResponse (responses i) = .failure (fs i)) →
      (fetch_stock_data ⟨apiKey, file, now, responses⟩ symbol).result =
        .error (fs 2) ∧
      (fetch_stock_data ⟨apiKey, file, now, responses⟩ symbol).networkCalls
        = 3 ∧
      (fetch_stock_data ⟨apiKey, file, now, responses⟩ symbol).sleeps =
        [60, 60] ∧
      (fetch_stock_data ⟨apiKey, file, now, responses⟩ symbol).cacheWrites
        = []) := by
  refine ⟨fun d note hn hf => classifyResponse_rateLimit d note hn hf,
    fun d e he => classifyResponse_failure_of_error_message d e he,
    fun d i hi => classifyResponse_failure_of_information d i hi,
    fun d h => classifyResponse_failure_of_no_series d h, ?_⟩
  intro apiKey file now responses symbol fs hk hfresh hfail
  have h0 : runAttempts responses symbol now (load_cache file) 0 3 =
      { result := (runAttempts responses symbol now (load_cache file) 1 2).result
        events := .network 0 :: .sleep 60 ::
          (runAttempts responses symbol now (load_cache file) 1 2).events } :=
    runAttempts_fail_step responses symbol now (load_cache file) 0 1
      (fs 0) (hfail 0)
  have h1 : runAttempts responses symbol now (load_cache file) 1 2 =
      { result := (runAttempts responses symbol now (load_cache file) 2 1).result
        events := .network 1 :: .sleep 60 ::
          (runAttempts responses symbol now (load_cache file) 2 1).events } :=
    runAttempts_fail_step responses symbol now (load_cache file) 1 0
      (fs 1) (hfail 1)
  have h2 : runAttempts responses symbol now (load_cache file) 2 1 =
      { result := .error (fs 2), events := [.network 2] } :=
    runAttempts_fail_last responses symbol now (load_cache file) 2
      (fs 2) (hfail 2)
  rw [fetch_miss3 apiKey file now responses symbol hk hfresh, h0, h1, h2]
  exact ⟨rfl, rfl, rfl, rfl⟩

theorem fetch_error_shapes_uniform_witness :
    classifyResponse [("Note", Json.str "API call frequency exceeded")] =
      .failure .rateLimit ∧
    (classifyResponse [("Error Message", Json.str "bad ticker")]).isFailure
      = true ∧
    (classifyResponse [("Information", Json.str "premium only")]).isFailure
      = true ∧
    (classifyResponse [("junk", Json.num 1)]).isFailure = true ∧
    (fetch_stock_data ⟨some "k", none, 0, fun i =>
        match i with
        | 0 => [("Error Message", Json.str "bad ticker")]
        | 1 => [("Information", Json.str "premium only")]
        | _ => [("junk", Json.num 1)]⟩ "IBM").result =
      .error .invalidResponse :=
  ⟨fetch_error_shapes_uniform.1 _ "API call frequency exceeded" rfl rfl,
   fetch_error_shapes_uniform.2.1 _ (Json.str "bad ticker") rfl,
   fetch_error_shapes_uniform.2.2.1 _ (Json.str "premium only") rfl,
   fetch_error_shapes_uniform.2.2.2.1 [("junk", Json.num 1)] rfl,
   (fetch_error_shapes_uniform.2.2.2.2 (some "k") none 0
      (fun i =>
        match i with
        | 0 => [("Error Message", Json.str "bad ticker")]
        | 1 => [("Information", Json.str "premium only")]
        | _ => [("junk", Json.num 1)]) "IBM"
      (fun i =>
        match i with
        | 0 => .apiError (Json.str "bad ticker")
        | 1 => .apiInformation (Json.str "premium only")
        | _ => .invalidResponse)
      rfl rfl
      (fun i =>
        match i with
        | 0 => rfl
        | 1 => rfl
        | _ + 2 => rfl)).1⟩

end StockExpert
